import Mathlib

/-!
Verification of the NoiseBuster event-detection and evidence-capture pipeline.

The definitions below are a shallow embedding of the Python sources:
  * `src/noisebuster.py`   — windowed sampling, rising-edge detection,
    telemetry writes with a failed-write retry queue (`update_noise_level`,
    `retry_failed_writes`);
  * `src/video_recording.py` — segment listing, retention cleanup, and the
    event-recording worker (`_list_segments`, `_cleanup_old_segments`,
    `trigger_event_recording` and its `_worker`).

Numeric sensor levels and file modification times are modelled as rationals;
fallible external effects (telemetry writes, file deletions, subprocesses)
are modelled by explicit outcome parameters.
-/

namespace NoiseBuster

/-! ## Sensor readings and the window peak (`update_noise_level`, reading loop) -/

/-- Python's `round(x, 1)`: round to one decimal place.  Every value the code
rounds is an exact multiple of `1/10`, on which this is the identity, so the
half-way tie-breaking convention is immaterial. -/
def round1 (q : ℚ) : ℚ := ((Int.floor (10 * q + 1/2) : ℤ) : ℚ) / 10

/-- The decibel formula applied to the two reply bytes of `ctrl_transfer`:
`dB = (ret[0] + ((ret[1] & 3) * 256)) * 0.1 + 30`. -/
def rawDb (b0 b1 : ℕ) : ℚ := (((b0 : ℚ) + ((b1 % 4 : ℕ) : ℚ) * 256)) * (1/10) + 30

/-- The value stored by the reading loop: the raw decibel value rounded to one
decimal (`dB = round(dB, 1)`). -/
def readDb (b0 b1 : ℕ) : ℚ := round1 (rawDb b0 b1)

/-- One iteration of the reading loop acting on `current_peak_dB`:
a reading is either `none` (the read raised, the peak is left unchanged and the
loop continues) or `some (b0, b1)` (the two bytes used by the formula); the
peak is replaced only when the new value is strictly greater. -/
def peakStep (peak : ℚ) (r : Option (ℕ × ℕ)) : ℚ :=
  match r with
  | none => peak
  | some (b0, b1) =>
      let dB := readDb b0 b1
      if dB > peak then dB else peak

/-- The peak accumulated over one window: `current_peak_dB` starts from the
reset value `0` and is folded through every read attempt of the window. -/
def windowPeak (reads : List (Option (ℕ × ℕ))) : ℚ :=
  reads.foldl peakStep 0

/-- The successful readings of a window, as rounded decibel values. -/
def successfulDbs (reads : List (Option (ℕ × ℕ))) : List ℚ :=
  (reads.filterMap id).map (fun p => readDb p.1 p.2)

/-! ## Telemetry records and the window-close block (`update_noise_level`) -/

/-- One telemetry point: measurement name, location tag, timestamp token and
the numeric noise level field. -/
structure TelemetryRecord where
  measurement : String
  location : String
  time : ℕ
  noise_level : ℚ
deriving DecidableEq

/-- An entry of `failed_writes_queue`: the destination bucket together with
the queued payload. -/
structure RetryItem where
  bucket : String
  payload : List TelemetryRecord
deriving DecidableEq

/-- The InfluxDB-related configuration consulted by the window-close block. -/
structure InfluxConfig where
  enabled : Bool
  bucket : String
  realtime_bucket : String

/-- Environment of one window close: configuration plus the outcome of the
two fallible telemetry writes. -/
structure WindowEnv where
  influx : InfluxConfig
  clientReady : Bool
  realtimeWriteOk : Bool
  mainWriteOk : Bool
  videoEnabled : Bool

/-- Result of one window close. -/
structure WindowResult where
  queue : List RetryItem
  realtimeRecord : TelemetryRecord
  eventFired : Bool
  mainRecord : Option TelemetryRecord
  videoTriggered : Bool
  lastAbove : Bool
  newPeak : ℚ

/-- The window-close block of `update_noise_level`, in source order:
build the realtime record from the rounded peak; attempt the realtime write
(on failure the record and its bucket are appended to the tail of
`failed_writes_queue`, and nothing is raised); evaluate
`above_threshold = current_peak_dB >= minimum_noise_level`; on a rising edge
(`above_threshold and not last_above_threshold`) build the threshold record,
attempt the main-bucket write with the same failure handling, and trigger the
video recording when video is enabled; finally update
`last_above_threshold` unconditionally and reset the peak to `0`. -/
def windowClose (env : WindowEnv) (minLevel : ℚ) (ts : ℕ) (last : Bool)
    (peak : ℚ) (queue : List RetryItem) : WindowResult :=
  let rt : TelemetryRecord :=
    ⟨"noise_buster_events", "noise_buster", ts, round1 peak⟩
  let queue1 : List RetryItem :=
    if env.influx.enabled && env.clientReady then
      if env.realtimeWriteOk then queue
      else queue ++ [⟨env.influx.realtime_bucket, [rt]⟩]
    else queue
  let above : Bool := decide (minLevel ≤ peak)
  let event : Bool := above && !last
  if event then
    let main : TelemetryRecord :=
      ⟨"noise_buster_events", "noise_buster", ts, round1 peak⟩
    let queue2 : List RetryItem :=
      if env.influx.enabled && env.clientReady then
        if env.mainWriteOk then queue1
        else queue1 ++ [⟨env.influx.bucket, [main]⟩]
      else queue1
    ⟨queue2, rt, true, some main, env.videoEnabled, above, 0⟩
  else
    ⟨queue1, rt, false, none, false, above, 0⟩

/-- Window closes chained over a list of window peaks, threading
`last_above_threshold` (the retry queue and timestamps are irrelevant to the
detector and are not threaded here). -/
def runWindows (env : WindowEnv) (minLevel : ℚ) : Bool → List ℚ → List WindowResult
  | _, [] => []
  | last, p :: ps =>
      let r := windowClose env minLevel 0 last p []
      r :: runWindows env minLevel r.lastAbove ps

/-! ## The retry drain (`retry_failed_writes`) -/

/-- One scheduled retry tick.  `ok n` is the outcome of the `n`-th write
attempt overall (the counter `n` threads through ticks).  Items are dequeued
from the head one at a time; a successful write continues with the rest; the
first failure re-enqueues the failed item at the tail and stops the tick
(`break`).  The third component lists the items attempted this tick, in
order. -/
def drainTick (ok : ℕ → Bool) : ℕ → List RetryItem → List RetryItem × ℕ × List RetryItem
  | n, [] => ([], n, [])
  | n, x :: rest =>
      if ok n then
        let r := drainTick ok (n + 1) rest
        (r.1, r.2.1, x :: r.2.2)
      else
        (rest ++ [x], n + 1, [x])

/-- `t` consecutive scheduled ticks, threading the attempt counter and the
queue. -/
def runTicks (ok : ℕ → Bool) : ℕ → ℕ → List RetryItem → ℕ × List RetryItem
  | 0, n, q => (n, q)
  | t + 1, n, q =>
      let r := drainTick ok n q
      runTicks ok t r.2.1 r.1

/-- The failure pattern "writes fail `k` times and then succeed": the first
`k` write attempts fail, all later attempts succeed. -/
def failK (k : ℕ) : ℕ → Bool := fun n => decide (k ≤ n)

/-- The items attempted during tick `t + 1` (ticks counted from `1`), when
starting from queue `q0` with attempt counter `0`. -/
def attemptsInTick (ok : ℕ → Bool) (t : ℕ) (q0 : List RetryItem) : List RetryItem :=
  let s := runTicks ok t 0 q0
  (drainTick ok s.1 s.2).2.2

/-! ## Segment listing and retention cleanup (`video_recording.py`) -/

/-- One directory entry of the buffer directory: the file name and its
modification time; `none` models a file that disappears between `os.listdir`
and `os.path.getmtime` (the `FileNotFoundError` the code skips with
`continue`). -/
structure DirEntry where
  name : String
  mtime : Option ℚ

/-- Character-list prefix test (the semantics of Python's `str.startswith`). -/
def charsStart : List Char → List Char → Bool
  | [], _ => true
  | _ :: _, [] => false
  | p :: ps, c :: cs => p == c && charsStart ps cs

/-- Character-list suffix test (the semantics of Python's `str.endswith`). -/
def charsEnd (suf s : List Char) : Bool :=
  charsStart suf.reverse s.reverse

/-- The filename filter of `_list_segments`:
`name.startswith("seg_") and (name.endswith(".h264") or name.endswith(".mp4"))`. -/
def isSegmentName (name : String) : Bool :=
  charsStart "seg_".data name.data
    && (charsEnd ".h264".data name.data || charsEnd ".mp4".data name.data)

/-- Ascending order on (name, modification time) pairs by modification time,
the key used by every sort in `video_recording.py`. -/
def byMtime : (String × ℚ) → (String × ℚ) → Prop := fun a b => a.2 ≤ b.2

instance : DecidableRel byMtime := fun a b => inferInstanceAs (Decidable (a.2 ≤ b.2))

instance : IsTotal (String × ℚ) byMtime := ⟨fun a b => le_total a.2 b.2⟩

instance : IsTrans (String × ℚ) byMtime := ⟨fun _ _ _ h h' => le_trans h h'⟩

/-- `_list_segments`: an absent buffer directory yields `[]`; otherwise the
entries passing the filename filter are paired with their modification times
(entries whose stat raises `FileNotFoundError` are skipped) and sorted
ascending by modification time. -/
def listSegments (dirOk : Bool) (entries : List DirEntry) : List (String × ℚ) :=
  if dirOk then
    List.insertionSort byMtime
      (entries.filterMap fun e =>
        if isSegmentName e.name then e.mtime.map (fun mt => (e.name, mt)) else none)
  else []

/-- `keep_seconds = max(10, int(buffer_seconds) * 2)` in `_cleanup_old_segments`. -/
def keepSeconds (bufferSeconds : ℤ) : ℤ := max 10 (bufferSeconds * 2)

/-- The deletion loop of `_cleanup_old_segments` over the listed segments:
each segment with `now - mt > keep_seconds` gets an `os.remove` attempt whose
failure is swallowed (`except Exception: pass`), and the loop continues with
the remaining segments either way.  `removeOk` gives each attempt's outcome.
Returns (segments attempted, segments actually deleted). -/
def cleanupLoop (removeOk : String → Bool) (now : ℚ) (keep : ℤ) :
    List (String × ℚ) → List (String × ℚ) × List (String × ℚ)
  | [] => ([], [])
  | s :: rest =>
      let r := cleanupLoop removeOk now keep rest
      if (keep : ℚ) < now - s.2 then
        (s :: r.1, if removeOk s.1 then s :: r.2 else r.2)
      else r

/-- `_cleanup_old_segments(buffer_seconds)`: list the segments, then run the
deletion loop with retention `max(10, 2 * buffer_seconds)`. -/
def cleanupOldSegments (removeOk : String → Bool) (now : ℚ) (bufferSeconds : ℤ)
    (dirOk : Bool) (entries : List DirEntry) : List (String × ℚ) × List (String × ℚ) :=
  cleanupLoop removeOk now (keepSeconds bufferSeconds) (listSegments dirOk entries)

/-! ## The event-recording worker (`trigger_event_recording` / `_worker`) -/

/-- Outcome of the `ffmpeg` concat invocation (`subprocess.run(..., check=True)`):
the binary may be missing (`FileNotFoundError`), the call may fail
(`CalledProcessError`), or it may return normally. -/
inductive SpliceOutcome
  | toolMissing
  | callFailed
  | ok
deriving DecidableEq

/-- Outcome of the optional embed step (`subprocess.run(["python", ...])`,
no `check=True`): the interpreter may be missing (`FileNotFoundError`), or the
subprocess may return — with or without having produced the processed file
(its exit status is never inspected). -/
inductive EmbedOutcome
  | raisesNotFound
  | ranNoOutput
  | ranWithOutput
deriving DecidableEq

/-- Environment of one worker run: the buffer directory contents at listing
time, the event parameters, and the outcomes of the external steps. -/
structure WorkerEnv where
  dirOk : Bool
  entries : List DirEntry
  eventTime : ℚ
  preS : ℤ
  postS : ℤ
  ffmpegRun : SpliceOutcome
  outputNonempty : Bool
  embedEnabled : Bool
  embedRun : EmbedOutcome

/-- Lower bound of the selection window:
`start_t = event_ts.timestamp() - pre_s - 2` (2 s grace). -/
def startT (env : WorkerEnv) : ℚ := env.eventTime - env.preS - 2

/-- Upper bound of the selection window:
`end_t = event_ts.timestamp() + post_s + 2` (2 s grace). -/
def endT (env : WorkerEnv) : ℚ := env.eventTime + env.postS + 2

/-- The worker's segment selection:
`chosen = [p for p, mt in segs if start_t <= mt <= end_t]` followed by
`chosen.sort(key=...getmtime)` (modification times are stable between the two
reads). -/
def chosenSegments (env : WorkerEnv) : List (String × ℚ) :=
  List.insertionSort byMtime
    ((listSegments env.dirOk env.entries).filter
      fun s => decide (startT env ≤ s.2) && decide (s.2 ≤ endT env))

/-- Observable actions of the worker, in program order. -/
inductive WAction
  | writeList        -- write concat_list.txt
  | runSplice        -- invoke ffmpeg
  | removeList       -- os.remove(list_file_path)
  | runEmbed         -- invoke the embed_text subprocess
  | removeFinal      -- os.remove(final_path)
  | renameProcessed  -- os.rename(processed_path, final_path)
  | releaseLock      -- _record_lock.release()
  | runCleanup       -- _cleanup_old_segments(buffer_s), best-effort
deriving DecidableEq

/-- Terminal status of a worker run. -/
inductive JobStatus
  | done
  | noSegments
  | spliceFailed
  | emptyOutput
  | postFailed
deriving DecidableEq

/-- Result of one worker run: the trace of observable actions, whether
`final_path` holds a non-empty artifact at the end, whether the processed
temporary still exists, and the terminal status. -/
structure WorkerResult where
  trace : List WAction
  finalExists : Bool
  processedExists : Bool
  status : JobStatus

/-- The `try` block of `_worker`: select segments (empty selection returns
early, creating nothing); write the concat list; run `ffmpeg` with `check=True`
(either raise is caught by the worker's `except` clauses); remove the list
file; check `os.path.exists(final_path) and os.path.getsize(final_path) > 0`;
when the embed flag is set, run the embed subprocess with its exit status
ignored, then unconditionally `os.remove(final_path)` and
`os.rename(processed_path, final_path)` — the rename raises
`FileNotFoundError` (caught) when the embed step produced no output. -/
def workerBody (env : WorkerEnv) : WorkerResult :=
  if (chosenSegments env).isEmpty then
    ⟨[], false, false, .noSegments⟩
  else
    match env.ffmpegRun with
    | .toolMissing => ⟨[.writeList, .runSplice], false, false, .spliceFailed⟩
    | .callFailed => ⟨[.writeList, .runSplice], false, false, .spliceFailed⟩
    | .ok =>
        if env.outputNonempty then
          if env.embedEnabled then
            match env.embedRun with
            | .raisesNotFound =>
                ⟨[.writeList, .runSplice, .removeList, .runEmbed], true, false, .postFailed⟩
            | .ranNoOutput =>
                ⟨[.writeList, .runSplice, .removeList, .runEmbed, .removeFinal],
                  false, false, .postFailed⟩
            | .ranWithOutput =>
                ⟨[.writeList, .runSplice, .removeList, .runEmbed, .removeFinal,
                    .renameProcessed], true, false, .done⟩
          else ⟨[.writeList, .runSplice, .removeList], true, false, .done⟩
        else ⟨[.writeList, .runSplice, .removeList], false, false, .emptyOutput⟩

/-- The whole worker: the `try` body (with its `except` handlers already
absorbed into `workerBody`'s outcomes) followed by the `finally` block, which
releases the single-flight lock and then invokes the best-effort cleanup, on
every exit path. -/
def workerRun (env : WorkerEnv) : WorkerResult :=
  let b := workerBody env
  ⟨b.trace ++ [.releaseLock, .runCleanup], b.finalExists, b.processedExists, b.status⟩

/-- `trigger_event_recording`, up to spawning the worker: returns `false`
with the lock untouched and no worker spawned when the feature is disabled,
when `ffmpeg` is not on the PATH, or when the single-flight
`_record_lock.acquire(blocking=False)` fails; otherwise acquires the lock,
spawns the worker and returns `true`.  Result: (return value, lock state
after the call, whether a worker was spawned). -/
def trigger (enabled ffmpegAvail lockHeld : Bool) : Bool × Bool × Bool :=
  if !enabled then (false, lockHeld, false)
  else if !ffmpegAvail then (false, lockHeld, false)
  else if lockHeld then (false, lockHeld, false)
  else (true, true, true)

/-! ## Auxiliary definitions used by the statements and witnesses -/

/-- A rational that is an exact multiple of one tenth — the granularity of
every decibel value the pipeline handles. -/
def isTenth (q : ℚ) : Prop := ∃ n : ℤ, q = (n : ℚ) / 10

/-- One rotation of the retry queue: the head moves to the tail, which is
what a failing tick does to a nonempty queue. -/
def rot (q : List RetryItem) : List RetryItem :=
  match q with
  | [] => []
  | x :: rest => rest ++ [x]

/-- A concrete retry item aimed at the main bucket (used by witnesses). -/
def itemA : RetryItem := ⟨"noise_buster", []⟩

/-- A concrete retry item aimed at the realtime bucket (used by witnesses). -/
def itemB : RetryItem := ⟨"noise_buster_realtime", []⟩

/-- A concrete window environment with everything enabled and healthy
(used by witnesses). -/
def envStd : WindowEnv :=
  ⟨⟨true, "noise_buster", "noise_buster_realtime"⟩, true, true, true, true⟩

/-- A concrete window environment with both telemetry writes failing
(used by witnesses). -/
def envFailingWrites : WindowEnv :=
  ⟨⟨true, "noise_buster", "noise_buster_realtime"⟩, true, false, false, true⟩

/-- A concrete worker environment with an empty buffer directory
(used by witnesses). -/
def envNoSegs : WorkerEnv :=
  ⟨true, [], 0, 5, 5, .ok, true, false, .ranWithOutput⟩

/-- The failing input of claim C2: the splice succeeds and leaves a valid
non-empty artifact, the embed flag is set, and the embed subprocess returns
without having produced the processed file. -/
def envEmbedFail : WorkerEnv :=
  ⟨true, [⟨"seg_0000000001.h264", some 100⟩], 100, 5, 5, .ok, true, true, .ranNoOutput⟩

/-- The same input with the embed step producing its output file. -/
def envEmbedOk : WorkerEnv :=
  ⟨true, [⟨"seg_0000000001.h264", some 100⟩], 100, 5, 5, .ok, true, true, .ranWithOutput⟩

/-- Concrete buffer-directory contents at `now = 100` (used by witnesses):
one segment aged 15 s and one aged 5 s. -/
def segEntries : List DirEntry :=
  [⟨"seg_1.h264", some 85⟩, ⟨"seg_2.h264", some 95⟩]

/-! ## Lemmas about rounding and readings -/

lemma floor_half : ⌊(1 : ℚ)/2⌋ = 0 := by
  rw [Int.floor_eq_zero_iff]
  constructor <;> norm_num

lemma round1_tenths (n : ℤ) : round1 ((n : ℚ) / 10) = (n : ℚ) / 10 := by
  unfold round1
  have h : (10 : ℚ) * ((n : ℚ) / 10) + 1/2 = 1/2 + (n : ℚ) := by
    field_simp
    ring
  rw [h, Int.floor_add_int, floor_half]
  push_cast
  ring

lemma round1_zero : round1 0 = 0 := by
  have h := round1_tenths 0
  simpa using h

lemma rawDb_tenths (b0 b1 : ℕ) :
    rawDb b0 b1 = (((b0 + b1 % 4 * 256 + 300 : ℕ) : ℤ) : ℚ) / 10 := by
  unfold rawDb
  generalize b1 % 4 = k
  push_cast
  ring

lemma readDb_eq_rawDb (b0 b1 : ℕ) : readDb b0 b1 = rawDb b0 b1 := by
  unfold readDb
  rw [rawDb_tenths, round1_tenths]

lemma readDb_ge_thirty (b0 b1 : ℕ) : (30 : ℚ) ≤ readDb b0 b1 := by
  rw [readDb_eq_rawDb]
  unfold rawDb
  have h : (0 : ℚ) ≤ ((b0 : ℚ) + ((b1 % 4 : ℕ) : ℚ) * 256) * (1/10) := by positivity
  linarith

lemma isTenth_readDb (b0 b1 : ℕ) : isTenth (readDb b0 b1) :=
  ⟨(b0 + b1 % 4 * 256 + 300 : ℕ), by rw [readDb_eq_rawDb, rawDb_tenths]⟩

lemma isTenth_max {a b : ℚ} (ha : isTenth a) (hb : isTenth b) : isTenth (max a b) := by
  obtain ⟨n, rfl⟩ := ha
  obtain ⟨m, rfl⟩ := hb
  rcases le_total ((n : ℚ)/10) ((m : ℚ)/10) with h | h
  · rw [max_eq_right h]; exact ⟨m, rfl⟩
  · rw [max_eq_left h]; exact ⟨n, rfl⟩

lemma isTenth_foldl_max :
    ∀ (l : List ℚ) (a : ℚ), isTenth a → (∀ x ∈ l, isTenth x) → isTenth (l.foldl max a)
  | [], _, ha, _ => ha
  | x :: rest, a, ha, hl =>
      isTenth_foldl_max rest (max a x) (isTenth_max ha (hl x (by simp)))
        (fun y hy => hl y (by simp [hy]))

lemma round1_of_isTenth {q : ℚ} (h : isTenth q) : round1 q = q := by
  obtain ⟨n, rfl⟩ := h
  exact round1_tenths n

/-! ## Lemmas about the window peak -/

lemma peakStep_none (p : ℚ) : peakStep p none = p := rfl

lemma peakStep_some (p : ℚ) (b0 b1 : ℕ) :
    peakStep p (some (b0, b1)) = max p (readDb b0 b1) := by
  unfold peakStep
  dsimp only
  rcases le_or_lt (readDb b0 b1) p with h | h
  · rw [if_neg (not_lt.mpr h), max_eq_left h]
  · rw [if_pos h, max_eq_right h.le]

lemma foldl_peakStep_eq :
    ∀ (reads : List (Option (ℕ × ℕ))) (a : ℚ),
      reads.foldl peakStep a = (successfulDbs reads).foldl max a
  | [], a => by simp [successfulDbs]
  | none :: rest, a => by
      simpa [successfulDbs] using foldl_peakStep_eq rest a
  | some (b0, b1) :: rest, a => by
      simp only [successfulDbs, List.filterMap_cons, id, List.map_cons, List.foldl_cons,
        peakStep_some]
      exact foldl_peakStep_eq rest _

lemma windowPeak_eq_foldl_max (reads : List (Option (ℕ × ℕ))) :
    windowPeak reads = (successfulDbs reads).foldl max 0 :=
  foldl_peakStep_eq reads 0

lemma successfulDbs_allNone :
    ∀ (reads : List (Option (ℕ × ℕ))), (∀ r ∈ reads, r = none) → successfulDbs reads = []
  | [], _ => rfl
  | r :: rest, h => by
      have hr : r = none := h r (by simp)
      subst hr
      simpa [successfulDbs] using successfulDbs_allNone rest (fun x hx => h x (by simp [hx]))

lemma windowPeak_allNone (reads : List (Option (ℕ × ℕ))) (h : ∀ r ∈ reads, r = none) :
    windowPeak reads = 0 := by
  rw [windowPeak_eq_foldl_max, successfulDbs_allNone reads h]
  rfl

/-! ## Lemmas about the window-close block -/

lemma windowClose_eventFired (env : WindowEnv) (m : ℚ) (ts : ℕ) (last : Bool)
    (peak : ℚ) (q : List RetryItem) :
    (windowClose env m ts last peak q).eventFired = (decide (m ≤ peak) && !last) := by
  simp only [windowClose]
  by_cases h : (decide (m ≤ peak) && !last) = true
  · simp [h]
  · rw [Bool.not_eq_true] at h
    simp [h]

lemma windowClose_lastAbove (env : WindowEnv) (m : ℚ) (ts : ℕ) (last : Bool)
    (peak : ℚ) (q : List RetryItem) :
    (windowClose env m ts last peak q).lastAbove = decide (m ≤ peak) := by
  simp only [windowClose]
  by_cases h : (decide (m ≤ peak) && !last) = true
  · simp [h]
  · rw [Bool.not_eq_true] at h
    simp [h]

lemma windowClose_newPeak (env : WindowEnv) (m : ℚ) (ts : ℕ) (last : Bool)
    (peak : ℚ) (q : List RetryItem) :
    (windowClose env m ts last peak q).newPeak = 0 := by
  simp only [windowClose]
  by_cases h : (decide (m ≤ peak) && !last) = true
  · simp [h]
  · rw [Bool.not_eq_true] at h
    simp [h]

lemma windowClose_realtimeRecord (env : WindowEnv) (m : ℚ) (ts : ℕ) (last : Bool)
    (peak : ℚ) (q : List RetryItem) :
    (windowClose env m ts last peak q).realtimeRecord =
      ⟨"noise_buster_events", "noise_buster", ts, round1 peak⟩ := by
  simp only [windowClose]
  by_cases h : (decide (m ≤ peak) && !last) = true
  · simp [h]
  · rw [Bool.not_eq_true] at h
    simp [h]

/-- Claim C8: each window's peak level equals the maximum over all successful
sensor readings in that window, rounded to one decimal; the peak is reset to
`0` at each window start; and a reading that raises an error leaves the
window's running peak unchanged. -/
theorem C8_window_peak_is_max (reads : List (Option (ℕ × ℕ))) (d : ℚ) (rest : List ℚ)
    (h : successfulDbs reads = d :: rest) :
    round1 (windowPeak reads) = rest.foldl max d
    ∧ (∀ peak, peakStep peak none = peak)
    ∧ windowPeak [] = 0
    ∧ (∀ env m ts last peak q, (windowClose env m ts last peak q).newPeak = 0) := by
  refine ⟨?_, fun _ => rfl, rfl, fun env m ts last peak q => windowClose_newPeak env m ts last peak q⟩
  have hd : d ∈ successfulDbs reads := by rw [h]; simp
  have hd30 : (30 : ℚ) ≤ d := by
    unfold successfulDbs at hd
    obtain ⟨p, _, rfl⟩ := List.mem_map.mp hd
    exact readDb_ge_thirty _ _
  have hdT : isTenth d := by
    unfold successfulDbs at hd
    obtain ⟨p, _, rfl⟩ := List.mem_map.mp hd
    exact isTenth_readDb _ _
  rw [windowPeak_eq_foldl_max, h, List.foldl_cons,
    max_eq_right (le_trans (by norm_num) hd30)]
  apply round1_of_isTenth
  apply isTenth_foldl_max rest d hdT
  intro x hx
  have hxm : x ∈ successfulDbs reads := by rw [h]; simp [hx]
  unfold successfulDbs at hxm
  obtain ⟨p, _, rfl⟩ := List.mem_map.mp hxm
  exact isTenth_readDb _ _

/-- Witness for C8 on the window `[40 dB, error, 80 dB, 40 dB]`. -/
theorem C8_window_peak_is_max_witness :
    round1 (windowPeak [some (100, 0), none, some (244, 1), some (100, 0)])
        = [(80 : ℚ), 40].foldl max 40
    ∧ (∀ peak, peakStep peak none = peak)
    ∧ windowPeak [] = 0
    ∧ (∀ env m ts last peak q, (windowClose env m ts last peak q).newPeak = 0) :=
  C8_window_peak_is_max [some (100, 0), none, some (244, 1), some (100, 0)] 40 [80, 40]
    (by
      simp only [successfulDbs, List.filterMap_cons, id_eq, List.filterMap_nil,
        List.map_cons, List.map_nil]
      simp only [readDb_eq_rawDb]
      norm_num [rawDb])

/-- Claim C9: a window with no successful read still closes normally with the
reset peak `0`: the realtime record carries noise level `0`, and the
rising-edge comparison is evaluated against `0` (both the flag update and the
event decision use `0`). -/
theorem C9_all_error_window (env : WindowEnv) (m : ℚ) (ts : ℕ) (last : Bool)
    (q : List RetryItem) (reads : List (Option (ℕ × ℕ)))
    (h : ∀ r ∈ reads, r = none) :
    windowPeak reads = 0
    ∧ (windowClose env m ts last (windowPeak reads) q).realtimeRecord =
        ⟨"noise_buster_events", "noise_buster", ts, 0⟩
    ∧ (windowClose env m ts last (windowPeak reads) q).lastAbove = decide (m ≤ (0 : ℚ))
    ∧ (windowClose env m ts last (windowPeak reads) q).eventFired
        = (decide (m ≤ (0 : ℚ)) && !last) := by
  have h0 : windowPeak reads = 0 := windowPeak_allNone reads h
  refine ⟨h0, ?_, ?_, ?_⟩
  · rw [h0, windowClose_realtimeRecord, round1_zero]
  · rw [h0, windowClose_lastAbove]
  · rw [h0, windowClose_eventFired]

/-- Witness for C9 on a window of two failed reads. -/
theorem C9_all_error_window_witness :
    windowPeak [none, none] = 0
    ∧ (windowClose envStd 60 0 false (windowPeak [none, none]) []).realtimeRecord =
        ⟨"noise_buster_events", "noise_buster", 0, 0⟩
    ∧ (windowClose envStd 60 0 false (windowPeak [none, none]) []).lastAbove
        = decide ((60 : ℚ) ≤ (0 : ℚ))
    ∧ (windowClose envStd 60 0 false (windowPeak [none, none]) []).eventFired
        = (decide ((60 : ℚ) ≤ (0 : ℚ)) && !false) :=
  C9_all_error_window envStd 60 0 false [] [none, none] (by decide)

/-! ## Lemmas about the rising-edge detector -/

lemma runWindows_flags_getD (env : WindowEnv) (m : ℚ) :
    ∀ (peaks : List ℚ) (l0 : Bool) (i : ℕ), i < peaks.length →
      ((runWindows env m l0 peaks).map WindowResult.lastAbove).getD i false
        = decide (m ≤ peaks.getD i 0)
  | [], _, i, h => by simp at h
  | p :: ps, l0, 0, _ => by
      simp [runWindows, windowClose_lastAbove]
  | p :: ps, l0, i + 1, h => by
      have hlen : i < ps.length := by simpa using h
      simp only [runWindows, List.map_cons, List.getD_cons_succ]
      rw [runWindows_flags_getD env m ps _ i hlen]

lemma runWindows_events_getD (env : WindowEnv) (m : ℚ) :
    ∀ (peaks : List ℚ) (l0 : Bool) (i : ℕ), i < peaks.length →
      ((runWindows env m l0 peaks).map WindowResult.eventFired).getD i false
        = (decide (m ≤ peaks.getD i 0)
            && !(if i = 0 then l0 else decide (m ≤ peaks.getD (i - 1) 0)))
  | [], _, i, h => by simp at h
  | p :: ps, l0, 0, _ => by
      simp [runWindows, windowClose_eventFired]
  | p :: ps, l0, i + 1, h => by
      have hlen : i < ps.length := by simpa using h
      simp only [runWindows, List.map_cons, List.getD_cons_succ]
      rw [runWindows_events_getD env m ps _ i hlen, windowClose_lastAbove]
      cases i with
      | zero => simp
      | succ j => simp

/-- Claim C1: over any sequence of window peaks (detector started below
threshold), an event fires at window `i` iff the peak of window `i` meets the
minimum and window `i` starts a maximal run (it is the first window, or the
previous window was below the minimum) — so exactly once per maximal
contiguous run, at its first window, never on an interior or falling window —
and the previous-window flag is updated unconditionally at every window
close. -/
theorem C1_rising_edge_detector (env : WindowEnv) (minL : ℚ) (peaks : List ℚ)
    (i : ℕ) (h : i < peaks.length) :
    (((runWindows env minL false peaks).map WindowResult.eventFired).getD i false = true
      ↔ (minL ≤ peaks.getD i 0 ∧ (i = 0 ∨ peaks.getD (i - 1) 0 < minL)))
    ∧ ((runWindows env minL false peaks).map WindowResult.lastAbove).getD i false
        = decide (minL ≤ peaks.getD i 0) := by
  constructor
  · rw [runWindows_events_getD env minL peaks false i h]
    cases i with
    | zero => simp
    | succ j => simp [not_le]
  · exact runWindows_flags_getD env minL peaks false i h

/-- Witness for C1 on the spec's example `[40, 80, 80, 40]` with minimum 60:
the event fires at window 1 (the rising edge). -/
theorem C1_rising_edge_detector_witness :
    ((((runWindows envStd 60 false [40, 80, 80, 40]).map WindowResult.eventFired).getD 1 false
        = true)
      ↔ ((60 : ℚ) ≤ [(40 : ℚ), 80, 80, 40].getD 1 0
          ∧ (1 = 0 ∨ [(40 : ℚ), 80, 80, 40].getD 0 0 < 60)))
    ∧ ((runWindows envStd 60 false [40, 80, 80, 40]).map WindowResult.lastAbove).getD 1 false
        = decide ((60 : ℚ) ≤ [(40 : ℚ), 80, 80, 40].getD 1 0) :=
  C1_rising_edge_detector envStd 60 [40, 80, 80, 40] 1 (by norm_num)

/-- Claim C6: a failing telemetry write is never dropped and never raises:
the record, with its destination bucket, is appended to the tail of the retry
queue (the realtime record on every window, the threshold record additionally
on an event), and the window close completes unaffected — the threshold
comparison is still evaluated, the flag still updated, the peak still
reset. -/
theorem C6_failed_writes_queued (env : WindowEnv) (m : ℚ) (ts : ℕ) (last : Bool)
    (peak : ℚ) (q : List RetryItem)
    (hen : env.influx.enabled = true) (hcl : env.clientReady = true)
    (hrt : env.realtimeWriteOk = false) (hmain : env.mainWriteOk = false) :
    (windowClose env m ts last peak q).queue
      = (if decide (m ≤ peak) && !last then
          q ++ [⟨env.influx.realtime_bucket,
                  [⟨"noise_buster_events", "noise_buster", ts, round1 peak⟩]⟩,
                ⟨env.influx.bucket,
                  [⟨"noise_buster_events", "noise_buster", ts, round1 peak⟩]⟩]
         else
          q ++ [⟨env.influx.realtime_bucket,
                  [⟨"noise_buster_events", "noise_buster", ts, round1 peak⟩]⟩])
    ∧ (windowClose env m ts last peak q).eventFired = (decide (m ≤ peak) && !last)
    ∧ (windowClose env m ts last peak q).lastAbove = decide (m ≤ peak)
    ∧ (windowClose env m ts last peak q).newPeak = 0 := by
  refine ⟨?_, windowClose_eventFired env m ts last peak q,
    windowClose_lastAbove env m ts last peak q, windowClose_newPeak env m ts last peak q⟩
  simp only [windowClose, hen, hcl, hrt, hmain]
  by_cases h : (decide (m ≤ peak) && !last) = true
  · simp [h]
  · rw [Bool.not_eq_true] at h
    simp [h]

/-- Witness for C6: both writes fail on an 80 dB window crossing a 60 dB
minimum; both records end up appended at the tail of the queue in order. -/
theorem C6_failed_writes_queued_witness :
    (windowClose envFailingWrites 60 7 false 80 [itemA]).queue
      = (if decide ((60 : ℚ) ≤ 80) && !false then
          [itemA] ++ [⟨envFailingWrites.influx.realtime_bucket,
                  [⟨"noise_buster_events", "noise_buster", 7, round1 80⟩]⟩,
                ⟨envFailingWrites.influx.bucket,
                  [⟨"noise_buster_events", "noise_buster", 7, round1 80⟩]⟩]
         else
          [itemA] ++ [⟨envFailingWrites.influx.realtime_bucket,
                  [⟨"noise_buster_events", "noise_buster", 7, round1 80⟩]⟩])
    ∧ (windowClose envFailingWrites 60 7 false 80 [itemA]).eventFired
        = (decide ((60 : ℚ) ≤ 80) && !false)
    ∧ (windowClose envFailingWrites 60 7 false 80 [itemA]).lastAbove
        = decide ((60 : ℚ) ≤ 80)
    ∧ (windowClose envFailingWrites 60 7 false 80 [itemA]).newPeak = 0 :=
  C6_failed_writes_queued envFailingWrites 60 7 false 80 [itemA] rfl rfl rfl rfl

/-! ## Lemmas about the retry drain -/

lemma drainTick_fail (ok : ℕ → Bool) (n : ℕ) (x : RetryItem) (rest : List RetryItem)
    (h : ok n = false) :
    drainTick ok n (x :: rest) = (rest ++ [x], n + 1, [x]) := by
  simp [drainTick, h]

lemma drainTick_all_ok (ok : ℕ → Bool) :
    ∀ (q : List RetryItem) (n : ℕ), (∀ m, n ≤ m → ok m = true) →
      drainTick ok n q = ([], n + q.length, q)
  | [], n, _ => by simp [drainTick]
  | x :: rest, n, h => by
      simp only [drainTick, h n le_rfl, if_true]
      rw [drainTick_all_ok ok rest (n + 1) (fun m hm => h m (by omega))]
      simp only [List.length_cons]
      have h2 : n + 1 + rest.length = n + (rest.length + 1) := by omega
      rw [h2]

lemma runTicks_succ (ok : ℕ → Bool) (t n : ℕ) (q : List RetryItem) :
    runTicks ok (t + 1) n q
      = runTicks ok t (drainTick ok n q).2.1 (drainTick ok n q).1 := rfl

lemma runTicks_one (ok : ℕ → Bool) (n : ℕ) (q : List RetryItem) :
    runTicks ok 1 n q = ((drainTick ok n q).2.1, (drainTick ok n q).1) := rfl

lemma runTicks_add (ok : ℕ → Bool) :
    ∀ (s t n : ℕ) (q : List RetryItem),
      runTicks ok (s + t) n q
        = runTicks ok t (runTicks ok s n q).1 (runTicks ok s n q).2
  | 0, t, n, q => by rw [Nat.zero_add]; rfl
  | s + 1, t, n, q => by
      have hcomm : s + 1 + t = (s + t) + 1 := by omega
      rw [hcomm, runTicks_succ, runTicks_succ,
        runTicks_add ok s t (drainTick ok n q).2.1 (drainTick ok n q).1]

lemma length_rot (q : List RetryItem) : (rot q).length = q.length := by
  cases q <;> simp [rot]

lemma length_rot_iter : ∀ (t : ℕ) (q : List RetryItem), (rot^[t] q).length = q.length
  | 0, _ => rfl
  | t + 1, q => by
      rw [Function.iterate_succ_apply, length_rot_iter t (rot q), length_rot]

lemma failK_false {k n : ℕ} (h : n < k) : failK k n = false := by
  simp [failK]; omega

lemma failK_true {k n : ℕ} (h : k ≤ n) : failK k n = true := by
  simp [failK]; omega

lemma runTicks_fail_phase (k : ℕ) :
    ∀ (t n : ℕ) (q : List RetryItem), q ≠ [] → n + t ≤ k →
      runTicks (failK k) t n q = (n + t, rot^[t] q)
  | 0, n, q, _, _ => by simp [runTicks]
  | t + 1, n, q, hq, h => by
      obtain ⟨x, rest, rfl⟩ : ∃ x rest, q = x :: rest := by
        cases q with
        | nil => exact absurd rfl hq
        | cons x rest => exact ⟨x, rest, rfl⟩
      rw [runTicks_succ, drainTick_fail (failK k) n x rest (failK_false (by omega))]
      rw [runTicks_fail_phase k t (n + 1) (rest ++ [x]) (by simp) (by omega)]
      rw [Function.iterate_succ_apply]
      have hrot : rot (x :: rest) = rest ++ [x] := rfl
      rw [hrot]
      refine congrArg (fun z => (z, rot^[t] (rest ++ [x]))) (by omega)

/-- Claim C4, amended: in each tick, queued items are dequeued and written
one at a time; on the first failure the failed item is re-enqueued at the
tail and the drain stops for that tick, the remaining items left untouched
(they may be attempted from the very next tick on, before the failed item
succeeds); when writes fail `k` times and then succeed, a nonempty queue
drains to empty in exactly `k + 1` ticks. -/
theorem C4_retry_drain (ok : ℕ → Bool) (n : ℕ) (x : RetryItem) (rest : List RetryItem)
    (hfail : ok n = false) (k : ℕ) (q : List RetryItem) (hq : q ≠ []) :
    drainTick ok n (x :: rest) = (rest ++ [x], n + 1, [x])
    ∧ (runTicks (failK k) (k + 1) 0 q).2 = []
    ∧ (∀ t, t ≤ k → (runTicks (failK k) t 0 q).2 ≠ []) := by
  refine ⟨drainTick_fail ok n x rest hfail, ?_, ?_⟩
  · rw [runTicks_add (failK k) k 1 0 q,
      runTicks_fail_phase k k 0 q hq (by omega)]
    dsimp only
    rw [Nat.zero_add, runTicks_one,
      drainTick_all_ok (failK k) (rot^[k] q) k (fun m hm => failK_true hm)]
  · intro t ht
    rw [runTicks_fail_phase k t 0 q hq (by omega)]
    have hlen := length_rot_iter t q
    intro h0
    have h0' : rot^[t] q = [] := h0
    rw [h0', List.length_nil] at hlen
    exact hq (List.length_eq_zero.mp hlen.symm)

/-- Witness for C4 with a two-element queue and two initial failures. -/
theorem C4_retry_drain_witness :
    drainTick (failK 2) 0 (itemA :: [itemB]) = ([itemB] ++ [itemA], 0 + 1, [itemA])
    ∧ (runTicks (failK 2) (2 + 1) 0 [itemA, itemB]).2 = []
    ∧ (∀ t, t ≤ 2 → (runTicks (failK 2) t 0 [itemA, itemB]).2 ≠ []) :=
  C4_retry_drain (failK 2) 0 itemA [itemB] (by decide) 2 [itemA, itemB] (by simp)

/-- Claim C4, counterexample to "items behind a failing item are not
attempted until the tick after it succeeds": with queue `[A, B]` and writes
failing twice then succeeding, `A` fails in tick 1 with `B` behind it, and
`A` first succeeds during tick 3 (after tick 2 it is still queued); yet `B`
is already attempted in tick 2. -/
theorem C4_retry_drain_counterexample :
    attemptsInTick (failK 2) 0 [itemA, itemB] = [itemA]
    ∧ attemptsInTick (failK 2) 1 [itemA, itemB] = [itemB]
    ∧ (runTicks (failK 2) 2 0 [itemA, itemB]).2 = [itemA, itemB]
    ∧ (runTicks (failK 2) 3 0 [itemA, itemB]).2 = [] := by
  decide

/-! ## Lemmas about segment listing and cleanup -/

lemma cleanupLoop_fst (ok : String → Bool) (now : ℚ) (keep : ℤ) :
    ∀ l : List (String × ℚ),
      (cleanupLoop ok now keep l).1
        = l.filter (fun s => decide ((keep : ℚ) < now - s.2))
  | [] => rfl
  | s :: rest => by
      simp only [cleanupLoop, List.filter_cons]
      by_cases h : (keep : ℚ) < now - s.2
      · simp [h, cleanupLoop_fst ok now keep rest]
      · simp [h, cleanupLoop_fst ok now keep rest]

lemma cleanupLoop_snd (ok : String → Bool) (now : ℚ) (keep : ℤ) :
    ∀ l : List (String × ℚ),
      (cleanupLoop ok now keep l).2
        = ((cleanupLoop ok now keep l).1).filter (fun s => ok s.1)
  | [] => rfl
  | s :: rest => by
      simp only [cleanupLoop]
      by_cases h : (keep : ℚ) < now - s.2
      · by_cases h2 : ok s.1 = true <;>
          simp [h, h2, cleanupLoop_snd ok now keep rest, List.filter_cons]
      · simp [h, cleanupLoop_snd ok now keep rest]

lemma mem_listSegments_isSeg {dirOk : Bool} {entries : List DirEntry}
    {s : String × ℚ} (h : s ∈ listSegments dirOk entries) :
    isSegmentName s.1 = true := by
  unfold listSegments at h
  by_cases hd : dirOk = true
  · rw [if_pos hd, List.mem_insertionSort] at h
    obtain ⟨e, _, hs⟩ := List.mem_filterMap.mp h
    by_cases hseg : isSegmentName e.name = true
    · rw [if_pos hseg] at hs
      obtain ⟨mt, _, rfl⟩ := Option.map_eq_some'.mp hs
      exact hseg
    · rw [if_neg hseg] at hs
      simp at hs
  · rw [if_neg hd] at h
    simp at h

/-- Claim C7: `cleanup(buffer_seconds)` attempts to delete exactly the
segments whose age strictly exceeds `max(10, 2 × buffer_seconds)`; a segment
aged `retention + ε` is removed and one aged `retention − ε` is retained;
and each individual deletion failure is swallowed — the set of attempts does
not depend on the delete outcomes, and the successful deletions are exactly
the attempts whose removal succeeded. -/
theorem C7_cleanup_retention (removeOk : String → Bool) (now : ℚ) (b : ℤ)
    (dirOk : Bool) (entries : List DirEntry) (ε : ℚ) (hε : 0 < ε) :
    (cleanupOldSegments removeOk now b dirOk entries).1
        = (listSegments dirOk entries).filter
            (fun s => decide ((keepSeconds b : ℚ) < now - s.2))
    ∧ (cleanupOldSegments removeOk now b dirOk entries).2
        = ((cleanupOldSegments removeOk now b dirOk entries).1).filter
            (fun s => removeOk s.1)
    ∧ (∀ nm : String,
        ((nm, now - ((keepSeconds b : ℚ) + ε)) ∈ listSegments dirOk entries →
          (nm, now - ((keepSeconds b : ℚ) + ε))
            ∈ (cleanupOldSegments removeOk now b dirOk entries).1)
        ∧ ((nm, now - ((keepSeconds b : ℚ) - ε)) ∈ listSegments dirOk entries →
          (nm, now - ((keepSeconds b : ℚ) - ε))
            ∉ (cleanupOldSegments removeOk now b dirOk entries).1)) := by
  have hfst := cleanupLoop_fst removeOk now (keepSeconds b) (listSegments dirOk entries)
  have hsnd := cleanupLoop_snd removeOk now (keepSeconds b) (listSegments dirOk entries)
  refine ⟨hfst, hsnd, ?_⟩
  intro nm
  constructor
  · intro hmem
    unfold cleanupOldSegments
    rw [hfst, List.mem_filter]
    refine ⟨hmem, ?_⟩
    simp only [decide_eq_true_eq]
    have harith : now - (now - ((keepSeconds b : ℚ) + ε)) = (keepSeconds b : ℚ) + ε := by
      ring
    rw [harith]
    linarith
  · intro hmem hcontra
    unfold cleanupOldSegments at hcontra
    rw [hfst, List.mem_filter] at hcontra
    have hlt := hcontra.2
    simp only [decide_eq_true_eq] at hlt
    have harith : now - (now - ((keepSeconds b : ℚ) - ε)) = (keepSeconds b : ℚ) - ε := by
      ring
    rw [harith] at hlt
    linarith

/-- Witness for C7: retention is `max(10, 6) = 10` s; a segment aged 15 s is
attempted, one aged 5 s is retained. -/
theorem C7_cleanup_retention_witness :
    ("seg_1.h264", (100 : ℚ) - ((keepSeconds 3 : ℚ) + 5))
        ∈ (cleanupOldSegments (fun _ => true) 100 3 true segEntries).1
    ∧ ("seg_2.h264", (100 : ℚ) - ((keepSeconds 3 : ℚ) - 5))
        ∉ (cleanupOldSegments (fun _ => true) 100 3 true segEntries).1 := by
  have hks : (keepSeconds 3 : ℚ) = 10 := by
    have h : keepSeconds 3 = (10 : ℤ) := by decide
    rw [h]
    norm_num
  have h1 : isSegmentName "seg_1.h264" = true := by decide
  have h2 : isSegmentName "seg_2.h264" = true := by decide
  have hls : listSegments true segEntries
      = [("seg_1.h264", (85 : ℚ)), ("seg_2.h264", (95 : ℚ))] := by
    simp only [listSegments, segEntries, List.filterMap_cons, List.filterMap_nil, h1, h2,
      if_true, Option.map_some']
    simp [byMtime]
    norm_num
  refine ⟨((C7_cleanup_retention (fun _ => true) 100 3 true segEntries 5
        (by norm_num)).2.2 "seg_1.h264").1 ?_,
      ((C7_cleanup_retention (fun _ => true) 100 3 true segEntries 5
        (by norm_num)).2.2 "seg_2.h264").2 ?_⟩
  · rw [hks, hls]
    norm_num
  · rw [hks, hls]
    norm_num

/-- Claim C10: listing and cleanup consider only files named `seg_*.h264` or
`seg_*.mp4`; the generated `concat_list.txt` is never among the deletion
attempts; and an entry whose modification time cannot be read (the file
vanished) is silently skipped by the listing. -/
theorem C10_listing_frame :
    (∀ (dirOk : Bool) (entries : List DirEntry) (s : String × ℚ),
        s ∈ listSegments dirOk entries → isSegmentName s.1 = true)
    ∧ (∀ (removeOk : String → Bool) (now : ℚ) (b : ℤ) (dirOk : Bool)
        (entries : List DirEntry) (s : String × ℚ),
        s ∈ (cleanupOldSegments removeOk now b dirOk entries).1 →
          isSegmentName s.1 = true)
    ∧ isSegmentName "concat_list.txt" = false
    ∧ (∀ (removeOk : String → Bool) (now : ℚ) (b : ℤ) (dirOk : Bool)
        (entries : List DirEntry) (mt : ℚ),
        ("concat_list.txt", mt) ∉ (cleanupOldSegments removeOk now b dirOk entries).1)
    ∧ (∀ (dirOk : Bool) (nm : String) (rest : List DirEntry),
        listSegments dirOk (⟨nm, none⟩ :: rest) = listSegments dirOk rest) := by
  have h1 : ∀ (dirOk : Bool) (entries : List DirEntry) (s : String × ℚ),
      s ∈ listSegments dirOk entries → isSegmentName s.1 = true :=
    fun _ _ _ h => mem_listSegments_isSeg h
  have h2 : ∀ (removeOk : String → Bool) (now : ℚ) (b : ℤ) (dirOk : Bool)
      (entries : List DirEntry) (s : String × ℚ),
      s ∈ (cleanupOldSegments removeOk now b dirOk entries).1 →
        isSegmentName s.1 = true := by
    intro removeOk now b dirOk entries s h
    unfold cleanupOldSegments at h
    rw [cleanupLoop_fst, List.mem_filter] at h
    exact mem_listSegments_isSeg h.1
  have h3 : isSegmentName "concat_list.txt" = false := by decide
  refine ⟨h1, h2, h3, ?_, ?_⟩
  · intro removeOk now b dirOk entries mt hmem
    have := h2 removeOk now b dirOk entries ("concat_list.txt", mt) hmem
    rw [h3] at this
    exact Bool.false_ne_true this
  · intro dirOk nm rest
    unfold listSegments
    by_cases hd : dirOk = true
    · rw [if_pos hd, if_pos hd]
      simp only [List.filterMap_cons]
      by_cases hseg : isSegmentName nm = true <;> simp [hseg]
    · rw [if_neg hd, if_neg hd]

/-- Witness for C10 on concrete directory contents. -/
theorem C10_listing_frame_witness :
    isSegmentName ("seg_1.h264", (85 : ℚ)).1 = true
    ∧ ("concat_list.txt", (3 : ℚ)) ∉ (cleanupOldSegments (fun _ => true) 100 3 true segEntries).1 := by
  have h1 : isSegmentName "seg_1.h264" = true := by decide
  refine ⟨C10_listing_frame.1 true [⟨"seg_1.h264", some 85⟩] ("seg_1.h264", 85) ?_,
    C10_listing_frame.2.2.2.1 (fun _ => true) 100 3 true segEntries 3⟩
  simp [listSegments, h1]

/-! ## Lemmas about the worker -/

lemma workerBody_count_release (env : WorkerEnv) :
    (workerBody env).trace.count WAction.releaseLock = 0 := by
  unfold workerBody
  split
  · rfl
  · split
    · rfl
    · rfl
    · split
      · split
        · split <;> rfl
        · rfl
      · rfl

/-- Claim C3: `trigger` returns `false` with the lock untouched and no worker
spawned when the feature is disabled, the splicing tool is absent, or the
single-flight lock is already held (it is try-acquired, never blocked on);
when it does start a job it acquires the lock; and on every exit path the
worker releases the lock exactly once, with the best-effort cleanup invoked
after the release. -/
theorem C3_single_flight :
    (∀ a l, trigger false a l = (false, l, false))
    ∧ (∀ e l, trigger e false l = (false, l, false))
    ∧ trigger true true true = (false, true, false)
    ∧ trigger true true false = (true, true, true)
    ∧ (∀ env : WorkerEnv,
        (workerRun env).trace.count WAction.releaseLock = 1
        ∧ ∃ t, (workerRun env).trace = t ++ [WAction.releaseLock, WAction.runCleanup]
            ∧ t.count WAction.releaseLock = 0) := by
  refine ⟨fun a l => rfl, fun e l => by cases e <;> rfl, rfl, rfl, ?_⟩
  intro env
  constructor
  · show ((workerBody env).trace ++ [WAction.releaseLock, WAction.runCleanup]).count
        WAction.releaseLock = 1
    rw [List.count_append, workerBody_count_release]
    rfl
  · exact ⟨(workerBody env).trace, rfl, workerBody_count_release env⟩

/-- Claim C5: the chosen segments are exactly the listed segments whose
modification time lies in `[event − pre − 2, event + post + 2]` (2 s grace),
in ascending modification-time order; with zero qualifying segments the job
ends as failed (`noSegments`) with no output file created and nothing done
besides releasing the lock and cleaning up. -/
theorem C5_segment_selection (env : WorkerEnv) :
    List.Perm (chosenSegments env)
        ((listSegments env.dirOk env.entries).filter
          (fun s => decide (startT env ≤ s.2) && decide (s.2 ≤ endT env)))
    ∧ List.Sorted byMtime (chosenSegments env)
    ∧ (∀ s : String × ℚ, s ∈ chosenSegments env ↔
        (s ∈ listSegments env.dirOk env.entries ∧ startT env ≤ s.2 ∧ s.2 ≤ endT env))
    ∧ ((chosenSegments env).isEmpty = true →
        (workerRun env).status = JobStatus.noSegments
        ∧ (workerRun env).finalExists = false
        ∧ (workerRun env).trace = [WAction.releaseLock, WAction.runCleanup]) := by
  refine ⟨List.perm_insertionSort byMtime _, List.sorted_insertionSort byMtime _, ?_, ?_⟩
  · intro s
    unfold chosenSegments
    rw [List.mem_insertionSort, List.mem_filter]
    simp [and_assoc]
  · intro h
    refine ⟨?_, ?_, ?_⟩ <;> simp [workerRun, workerBody, h]

/-- Witness for C5 on an empty buffer directory. -/
theorem C5_segment_selection_witness :
    (workerRun envNoSegs).status = JobStatus.noSegments
    ∧ (workerRun envNoSegs).finalExists = false
    ∧ (workerRun envNoSegs).trace = [WAction.releaseLock, WAction.runCleanup] :=
  (C5_segment_selection envNoSegs).2.2.2 (by rfl)

/-- Claim C2 (code bug): at the failing input — splice succeeded leaving a
valid non-empty artifact, embed flag set, embed subprocess returned without
producing the processed file — the worker still removes `final_path`
unconditionally and the subsequent rename raises, so neither the original
artifact nor a replacement exists at the end; the required guarantee (the
original is removed only after the replacement is confirmed) is violated.
With a successful embed step the replacement is renamed into place. -/
theorem C2_postprocess_deletes_artifact :
    (workerRun envEmbedFail).finalExists = false
    ∧ (workerRun envEmbedFail).processedExists = false
    ∧ (workerRun envEmbedFail).status = JobStatus.postFailed
    ∧ WAction.removeFinal ∈ (workerRun envEmbedFail).trace
    ∧ (workerRun envEmbedFail).trace.count WAction.renameProcessed = 0
    ∧ (workerRun envEmbedOk).finalExists = true := by
  have hseg : isSegmentName "seg_0000000001.h264" = true := by decide
  have hls : listSegments true [⟨"seg_0000000001.h264", some 100⟩]
      = [("seg_0000000001.h264", (100 : ℚ))] := by
    simp [listSegments, hseg]
  have hch : chosenSegments envEmbedFail = [("seg_0000000001.h264", (100 : ℚ))] := by
    simp only [chosenSegments, envEmbedFail, hls, startT, endT]
    norm_num
  have hch2 : chosenSegments envEmbedOk = [("seg_0000000001.h264", (100 : ℚ))] := by
    simp only [chosenSegments, envEmbedOk, hls, startT, endT]
    norm_num
  refine ⟨?_, ?_, ?_, ?_, ?_, ?_⟩ <;>
  · simp only [workerRun, workerBody, hch, hch2]
    simp [envEmbedFail, envEmbedOk]

end NoiseBuster
